import Mathlib

/-!
Shallow embedding of `src/app.js`: a debounced, paginated GitHub
repository-search client. The embedding covers the four components the
specification describes: the `DelayedTask` single-shot timer wrapper, the
`DelayedTaskFactory` that ties a task to a deferred/promise, the
`GithubService` (paging validation, URL construction, response
normalization) and the `SearchController` state machine (paging state,
result accumulation, request-gating flags).

JavaScript values that flow through the pipeline (responses, result beans,
error payloads) are modelled by the inductive `JSVal`; `undefined` property
access is modelled by `JSVal.getField` returning `JSVal.undefined`. Promises are
modelled by their settled outcome (`Outcome`); timers by explicit state on
`DelayedTask` plus explicit "fire" transitions.
-/

namespace SearchApp

/-- `.value('START_PAGE', 1)` in app.js. -/
def START_PAGE : Int := 1

/-- `.value('PAGE_LIMIT', 10)` in app.js. -/
def PAGE_LIMIT : Int := 10

/-- `.value('TIME_DELAY', 2000)` in app.js (debounce interval, ms). -/
def TIME_DELAY : Nat := 2000

/-- A JavaScript value, as needed by the data flowing through app.js:
`null`, `undefined`, booleans, (integer) numbers, strings, arrays and
plain objects (ordered field lists). -/
inductive JSVal where
  | null
  | undefined
  | bool (b : Bool)
  | num (n : Int)
  | str (s : String)
  | arr (elems : List JSVal)
  | obj (fields : List (String × JSVal))

/-- JavaScript property read `v[k]`: for an object, the value of the first
field named `k` (`undefined` when absent); on any non-object, `undefined`. -/
def JSVal.getField (v : JSVal) (k : String) : JSVal :=
  match v with
  | .obj fields =>
      match fields.find? (fun p => p.1 == k) with
      | some p => p.2
      | none => .undefined
  | _ => .undefined

/-- The closure state of a `DelayedTask` (app.js lines 45-63).
`taskID` is the closure variable of the same name: `none` models both its
initial `undefined` and the `null` written by `cancel` (both falsy);
`some id` models a (truthy, positive) timer id returned by `setTimeout`.
`timerPending` records whether an armed timeout has not yet fired — an
environment fact (the browser's timer table), not a closure variable: the
code never reads it, but the spec talks about the pending timer. -/
structure DelayedTask where
  taskID : Option Nat
  timerPending : Bool
deriving DecidableEq, Repr

/-- A freshly constructed `DelayedTask`: `taskID` is `undefined`, nothing
is armed. -/
def DelayedTask.fresh : DelayedTask := { taskID := none, timerPending := false }

/-- `schedule()` : `if (taskID) throw Error('TASK ALREADY SCHEDULED');
else taskID = setTimeout(job, delay);`. `newID` is the (positive) id
`setTimeout` returns; arming makes the timeout pending. -/
def DelayedTask.schedule (t : DelayedTask) (newID : Nat) : Except String DelayedTask :=
  match t.taskID with
  | some _ => .error "TASK ALREADY SCHEDULED"
  | none => .ok { taskID := some newID, timerPending := true }

/-- `cancel()` : `if (taskID) { clearInterval(taskID); taskID = null; }`.
When a handle is live the pending timeout (if any) is cleared and the
handle nulled; with no handle the call is a no-op (and never throws —
totality of this function models that). -/
def DelayedTask.cancel (t : DelayedTask) : DelayedTask :=
  match t.taskID with
  | some _ => { taskID := none, timerPending := false }
  | none => t

/-- The armed timeout fires: the browser runs the callback and the timeout
is spent. No callback in app.js (the factory's try/catch wrapper, the
service's no-op) ever touches the closure variable `taskID`, so firing
leaves `taskID` exactly as `schedule` wrote it. -/
def DelayedTask.fire (t : DelayedTask) : DelayedTask :=
  { t with timerPending := false }

/-- A settled promise: `$q` deferred outcomes. -/
inductive Outcome where
  | resolved (v : JSVal)
  | rejected (e : JSVal)

/-- What `job()` does when the factory's wrapped callback invokes it:
either it throws synchronously, or it returns a value/promise whose
settled outcome is `p` (a plain return value `v` is `returns (resolved v)`,
since `$q.when(v)` resolves with it). -/
inductive JobBehavior where
  | syncThrow (e : JSVal)
  | returns (p : Outcome)

/-- The settled outcome of the future of `DelayedTaskFactory.create(job, delay)`
once its task has fired (app.js lines 83-94):
`try { deferred.resolve($q.when(job())) } catch (e) { deferred.reject(e.data) }`.
A synchronous throw is caught and rejected with the error's `data` member;
a returned promise is flattened by `resolve($q.when(...))`, so the future
settles exactly as the job's promise does — rejection reasons pass through
unchanged. -/
def factoryFire (job : JobBehavior) : Outcome :=
  match job with
  | .syncThrow e => .rejected (e.getField "data")
  | .returns p => p

/-- `TARGET_URL_PRFIX` in app.js (sic). -/
def TARGET_URL_PRFIX : String := "https://api.github.com/legacy/repos/search/"

/-- `createGithubSearchURL(term, targetPage)` :
`TARGET_URL_PRFIX + term + "?start_page=" + targetPage`. -/
def createGithubSearchURL (term : String) (targetPage : Int) : String :=
  TARGET_URL_PRFIX ++ term ++ "?start_page=" ++ toString targetPage

/-- The projection app.js applies to each raw repository record inside
`createResultBeans`: an object holding exactly the six designated fields,
each read off the raw record, everything else dropped. -/
def projectRecord (r : JSVal) : JSVal :=
  .obj [
    ("owner", r.getField "owner"),
    ("name", r.getField "name"),
    ("language", r.getField "language"),
    ("followers", r.getField "followers"),
    ("url", r.getField "url"),
    ("description", r.getField "description")]

/-- `createResultBeans(response)` (app.js lines 158-172): reads
`response.data.repositories` and maps the loop body (`projectRecord`)
over it. When that value is not an array the JS loop header
(`rawData.length`) throws a `TypeError`; `none` models that throw. -/
def createResultBeans (response : JSVal) : Option (List JSVal) :=
  match (response.getField "data").getField "repositories" with
  | .arr rawData => some (rawData.map projectRecord)
  | _ => none

/-- The job built by `searchGitHubRepos(term, targetPage)` (app.js lines
136-144), applied to the settled outcome of `$http.get(url)`:
`.then(createResultBeans).catch(function (response) { return $q.reject(response.data); })`.
On HTTP success the beans are produced (a `TypeError` thrown by
`createResultBeans` falls into the catch, whose argument then has no
`data` field, hence `undefined`); on HTTP failure the catch rejects with the
response's `data` payload. -/
def searchGitHubRepos (httpOutcome : Outcome) : Outcome :=
  match httpOutcome with
  | .resolved response =>
      match createResultBeans response with
      | some beans => .resolved (.arr beans)
      | none => .rejected (JSVal.undefined)
  | .rejected response => .rejected (response.getField "data")

/-- Observable description of the `StructuredDelayedTask` a call to
`searchByKeywordWithPaging` returns: whether its `schedule()` was invoked
(a debounce timer armed), which HTTP GET the scheduled job will perform
(none for the dummy task), whether the promise is already rejected and
with which `message`, and whether the wrapped task is the no-op dummy. -/
structure ModelSDT where
  timerArmed : Bool
  networkRequest : Option (String × Int)
  immediateRejection : Option String
  taskIsNoOp : Bool
deriving DecidableEq, Repr

/-- `searchByKeywordWithPaging(keyword, pageNumber)` (app.js lines 118-129):
out-of-range pages return the shared dummy no-op task paired with
`$q.reject({message: 'INVALID PAGING VALUE ' + pageNumber + ' FOR KEYWORD ' + keyword})`
— nothing scheduled, no request; in-range pages create the delayed HTTP job
via the factory with delay `TIME_DELAY` and immediately arm its schedule. -/
def searchByKeywordWithPaging (keyword : String) (pageNumber : Int) : ModelSDT :=
  if pageNumber > PAGE_LIMIT ∨ pageNumber < START_PAGE then
    { timerArmed := false
      networkRequest := none
      immediateRejection :=
        some ("INVALID PAGING VALUE " ++ toString pageNumber ++ " FOR KEYWORD " ++ keyword)
      taskIsNoOp := true }
  else
    { timerArmed := true
      networkRequest := some (keyword, pageNumber)
      immediateRejection := none
      taskIsNoOp := false }

/-- The `SearchController` scope state (app.js lines 175-304).
`searchTerm` is the bound input; `error` is a `JSVal` because the JS field
starts out `undefined` (`JSVal.undefined`), is reset to `null` and later holds
an arbitrary error payload; `canLoadMore` is `Option Bool` because the JS
field is never initialized (`none` models `undefined`) and only
`resetPaging` / `disableLoadMore` write booleans into it; `currentPage`
and `delayedJob` are the controller's private variables. -/
structure ScopeState where
  searchTerm : String
  searchResults : List JSVal
  canInitiateRequests : Bool
  fetchingMoreResults : Bool
  canLoadMore : Option Bool
  error : JSVal
  currentPage : Int
  delayedJob : Option ModelSDT

/-- The controller's state right after construction: empty results,
`canInitiateRequests = true`, `fetchingMoreResults = false`,
`currentPage = START_PAGE`, `canLoadMore` and `error` still undefined,
no active job. -/
def initialScope (term : String) : ScopeState :=
  { searchTerm := term
    searchResults := []
    canInitiateRequests := true
    fetchingMoreResults := false
    canLoadMore := none
    error := .undefined
    currentPage := START_PAGE
    delayedJob := none }

/-- JS `split(' ')` at the character level: split at every single space,
keeping empty pieces (so the result is never the empty list — the empty
string yields `[[]]`, just as `"".split(' ')` yields `[""]`). -/
def splitOnSpace (cs : List Char) : List (List Char) :=
  match cs with
  | [] => [[]]
  | c :: rest =>
    match splitOnSpace rest with
    | [] => [[]]
    | piece :: pieces =>
      if c = ' ' then [] :: piece :: pieces
      else (c :: piece) :: pieces

/-- `getFormattedInput()` : `$scope.searchTerm.split(' ').join('+')` —
split at every single space (empty pieces kept) and rejoin the pieces
with `'+'` at each split point. -/
def getFormattedInput (searchTerm : String) : String :=
  String.mk (List.intercalate ['+'] (splitOnSpace searchTerm.data))

/-- `cancelJobIfStillActive()` : cancels the active job's timer (if any)
and nulls `delayedJob`. -/
def cancelJobIfStillActive (s : ScopeState) : ScopeState :=
  match s.delayedJob with
  | some _ => { s with delayedJob := none }
  | none => s

/-- `resetErrorState()` : `$scope.error = null`. -/
def resetErrorState (s : ScopeState) : ScopeState :=
  { s with error := .null }

/-- `resetPaging()` : `currentPage = START_PAGE; $scope.canLoadMore = true`. -/
def resetPaging (s : ScopeState) : ScopeState :=
  { s with currentPage := START_PAGE, canLoadMore := some true }

/-- `incrementPage()` : `currentPage++`. -/
def incrementPage (s : ScopeState) : ScopeState :=
  { s with currentPage := s.currentPage + 1 }

/-- `decrementPage()` : `currentPage--`. -/
def decrementPage (s : ScopeState) : ScopeState :=
  { s with currentPage := s.currentPage - 1 }

/-- `resetRequestInitiation()` (the `.finally` hook) :
`$scope.canInitiateRequests = true; $scope.fetchingMoreResults = false`. -/
def resetRequestInitiation (s : ScopeState) : ScopeState :=
  { s with canInitiateRequests := true, fetchingMoreResults := false }

/-- `onErrorOccurred(error)` : `$scope.error = error`. -/
def onErrorOccurred (error : JSVal) (s : ScopeState) : ScopeState :=
  { s with error := error }

/-- `disableLoadMore()` : `$scope.canLoadMore = false`. -/
def disableLoadMore (s : ScopeState) : ScopeState :=
  { s with canLoadMore := some false }

/-- `onSearchResultsReceived(beans)` : an empty batch disables load-more;
a non-empty batch is appended in order to `$scope.searchResults` via
`push.apply`. -/
def onSearchResultsReceived (beans : List JSVal) (s : ScopeState) : ScopeState :=
  if beans.length == 0 then
    disableLoadMore s
  else
    { s with searchResults := s.searchResults ++ beans }

/-- `$scope.conductSearch()` (app.js lines 202-217): formats the term,
cancels any active job, resets error and paging, clears the results; only
when the formatted term is non-empty does it call the service at the
(reset) `currentPage`, store the new job, and drop the gating flags.
Returns the new state together with the job this call initiated (`none`
when no service call was made). -/
def conductSearch (s : ScopeState) : ScopeState × Option ModelSDT :=
  let term := getFormattedInput s.searchTerm
  let s1 := cancelJobIfStillActive s
  let s2 := resetErrorState s1
  let s3 := resetPaging s2
  let s4 := { s3 with searchResults := [] }
  if term ≠ "" then
    let sdt := searchByKeywordWithPaging term s4.currentPage
    ({ s4 with
        delayedJob := some sdt
        canInitiateRequests := false
        fetchingMoreResults := false },
      some sdt)
  else
    (s4, none)

/-- `$scope.fetchMoreResults()` (app.js lines 226-241): formats the term,
cancels any active job, resets the error, optimistically increments the
page, calls the service at the new page, stores the job and sets the
gating flags (`canInitiateRequests = false`, `fetchingMoreResults = true`).
Returns the new state and the initiated job; the failure continuation is
`fetchMoreOnFailure` below. -/
def fetchMoreResults (s : ScopeState) : ScopeState × ModelSDT :=
  let term := getFormattedInput s.searchTerm
  let s1 := cancelJobIfStillActive s
  let s2 := resetErrorState s1
  let s3 := incrementPage s2
  let sdt := searchByKeywordWithPaging term s3.currentPage
  ({ s3 with
      delayedJob := some sdt
      canInitiateRequests := false
      fetchingMoreResults := true },
    sdt)

/-- The `.catch` handler of `fetchMoreResults` followed by the `.finally`
hook: `decrementPage(); onErrorOccurred(error);` then
`resetRequestInitiation()`. -/
def fetchMoreOnFailure (error : JSVal) (s : ScopeState) : ScopeState :=
  resetRequestInitiation (onErrorOccurred error (decrementPage s))

/-- `$scope.isAllowedToLoadMore()` (app.js lines 298-304): the pure
conjunction `canLoadMore === true && getFormattedInput() != "" &&
currentPage <= PAGE_LIMIT && canInitiateRequests === true &&
searchResults.length > 0`. -/
def isAllowedToLoadMore (s : ScopeState) : Bool :=
  (s.canLoadMore == some true) &&
  (getFormattedInput s.searchTerm != "") &&
  decide (s.currentPage ≤ PAGE_LIMIT) &&
  (s.canInitiateRequests == true) &&
  decide (s.searchResults.length > 0)

/-! ## Theorems -/

/-- C1: for every keyword and every `pageNumber` strictly below `START_PAGE`
or strictly above `PAGE_LIMIT`, `searchByKeywordWithPaging` returns the
no-op dummy task with an already-rejected future whose message mentions
both the page number and the keyword; no timer is armed and no network
request is issued. -/
theorem C1_out_of_range_rejects_immediately (keyword : String) (pageNumber : Int)
    (h : pageNumber < START_PAGE ∨ pageNumber > PAGE_LIMIT) :
    searchByKeywordWithPaging keyword pageNumber =
      { timerArmed := false
        networkRequest := none
        immediateRejection :=
          some ("INVALID PAGING VALUE " ++ toString pageNumber ++ " FOR KEYWORD " ++ keyword)
        taskIsNoOp := true } := by
  unfold searchByKeywordWithPaging
  rw [if_pos h.symm]

/-- Witness for C1 at keyword `"foo"`, page `11` (one past `PAGE_LIMIT`). -/
theorem C1_out_of_range_rejects_immediately_witness :
    ((11 : Int) < START_PAGE ∨ (11 : Int) > PAGE_LIMIT) ∧
    searchByKeywordWithPaging "foo" 11 =
      { timerArmed := false
        networkRequest := none
        immediateRejection := some ("INVALID PAGING VALUE " ++ toString (11 : Int) ++ " FOR KEYWORD " ++ "foo")
        taskIsNoOp := true } :=
  ⟨Or.inr (by decide), C1_out_of_range_rejects_immediately "foo" 11 (Or.inr (by decide))⟩

/-- C2 counterexample: the whitespace-only search term `" "` formats to
`"+"`, which is non-empty, so `conductSearch` does issue a service call —
a job is initiated, its timer armed and a network request for keyword
`"+"` at page 1 pending — contradicting the claim that every
whitespace-only term performs no request. -/
theorem C2_counterexample_whitespace_term_requests :
    getFormattedInput " " = "+" ∧
    (conductSearch (initialScope " ")).2 =
      some { timerArmed := true
             networkRequest := some ("+", 1)
             immediateRejection := none
             taskIsNoOp := false } :=
  ⟨rfl, rfl⟩

/-- C2 amended: for every state whose formatted search term is empty
(which happens exactly for the empty `searchTerm`; whitespace-only terms
format to non-empty runs of `'+'` and do issue a request), `conductSearch`
issues no request, leaves `searchResults` empty, keeps
`canInitiateRequests` at its prior value (so it stays `true` when it was
`true`), and leaves no job installed. -/
theorem C2_empty_term_no_request (s : ScopeState)
    (h : getFormattedInput s.searchTerm = "") :
    (conductSearch s).2 = none ∧
    (conductSearch s).1.searchResults = [] ∧
    (conductSearch s).1.canInitiateRequests = s.canInitiateRequests ∧
    (conductSearch s).1.delayedJob = none := by
  cases hd : s.delayedJob <;>
    simp [conductSearch, cancelJobIfStillActive, resetErrorState, resetPaging, h, hd]

/-- Witness for C2 amended at the empty search term. -/
theorem C2_empty_term_no_request_witness :
    getFormattedInput "" = "" ∧
    ((conductSearch (initialScope "")).2 = none ∧
     (conductSearch (initialScope "")).1.searchResults = [] ∧
     (conductSearch (initialScope "")).1.canInitiateRequests = (initialScope "").canInitiateRequests ∧
     (conductSearch (initialScope "")).1.delayedJob = none) :=
  ⟨rfl, C2_empty_term_no_request (initialScope "") rfl⟩

/-- C3 counterexample: schedule a fresh task (handle becomes `some 1`),
let the timer fire — `taskID` is not cleared by firing — and the second
`schedule` throws `TASK ALREADY SCHEDULED`, contradicting the claim that
re-scheduling after firing succeeds because firing clears the handle. -/
theorem C3_counterexample_reschedule_after_fire_throws :
    DelayedTask.fresh.schedule 1 = .ok { taskID := some 1, timerPending := true } ∧
    (DelayedTask.mk (some 1) true).fire.schedule 2 = .error "TASK ALREADY SCHEDULED" :=
  ⟨rfl, rfl⟩

/-- C3 amended: firing leaves the handle exactly as `schedule` wrote it,
so re-scheduling after the timer fired (without an intervening `cancel`)
fails with `TASK ALREADY SCHEDULED`; only after a `cancel` does
`schedule` succeed again. -/
theorem C3_fire_keeps_handle (t : DelayedTask) (id newID : Nat) :
    (DelayedTask.fire t).taskID = t.taskID ∧
    (DelayedTask.mk (some id) true).fire.schedule newID = .error "TASK ALREADY SCHEDULED" ∧
    ((DelayedTask.mk (some id) true).fire.cancel).schedule newID =
      .ok { taskID := some newID, timerPending := true } :=
  ⟨rfl, rfl, rfl⟩

/-- C4: when the job started by `fetchMoreResults` fails, the catch
handler (page decrement, then error recording) followed by the finally
hook leaves `currentPage` equal to its value before the `fetchMoreResults`
call, records the rejection payload in `error`, and does not clear the
previously accumulated `searchResults`. -/
theorem C4_fetch_more_failure_compensates (s : ScopeState) (e : JSVal) :
    (fetchMoreOnFailure e (fetchMoreResults s).1).currentPage = s.currentPage ∧
    (fetchMoreOnFailure e (fetchMoreResults s).1).error = e ∧
    (fetchMoreOnFailure e (fetchMoreResults s).1).searchResults = s.searchResults := by
  cases hd : s.delayedJob <;>
    simp [fetchMoreResults, fetchMoreOnFailure, cancelJobIfStillActive, resetErrorState,
      incrementPage, decrementPage, onErrorOccurred, resetRequestInitiation, hd]

/-- C5 counterexample: a job whose returned promise rejects with the full
error envelope `{data: "payload", status: 500}` makes the factory's future
reject with that whole envelope — `deferred.resolve($q.when(result))`
passes the rejection reason through unchanged — not with its `data`
member, contradicting the claim that asynchronous rejections also surface
as the error's payload field. -/
theorem C5_counterexample_async_rejection_keeps_envelope :
    factoryFire (.returns (.rejected (.obj [("data", .str "payload"), ("status", .num 500)]))) =
      .rejected (.obj [("data", .str "payload"), ("status", .num 500)]) ∧
    (JSVal.obj [("data", .str "payload"), ("status", .num 500)]).getField "data" = .str "payload" ∧
    factoryFire (.returns (.rejected (.obj [("data", .str "payload"), ("status", .num 500)]))) ≠
      .rejected (.str "payload") := by
  refine ⟨rfl, rfl, ?_⟩
  simp [factoryFire]

/-- C5 amended: a synchronous throw during job execution is caught and
converted to a rejection with the error's `data` member, while an
asynchronous rejection of the job's promise passes through the factory
unchanged; in the service's actual job (`searchGitHubRepos`) HTTP failures
are already re-rejected with `response.data` before reaching the factory,
so the composed pipeline rejects with the payload in both cases. -/
theorem C5_rejection_channels (e : JSVal) (p : Outcome) (resp : JSVal) :
    factoryFire (.syncThrow e) = .rejected (e.getField "data") ∧
    factoryFire (.returns p) = p ∧
    factoryFire (.returns (searchGitHubRepos (.rejected resp))) =
      .rejected (resp.getField "data") :=
  ⟨rfl, rfl, rfl⟩

/-- C6: for a successful response whose normalized batch has 0 records,
the success handler sets `canLoadMore` to `false` and leaves
`searchResults` unchanged. -/
theorem C6_empty_batch_disables_load_more (resp : JSVal) (beans : List JSVal)
    (s : ScopeState) (_hresp : createResultBeans resp = some beans)
    (h0 : beans.length = 0) :
    (onSearchResultsReceived beans s).canLoadMore = some false ∧
    (onSearchResultsReceived beans s).searchResults = s.searchResults := by
  simp [onSearchResultsReceived, h0, disableLoadMore]

/-- Witness for C6 at the response `{data: {repositories: []}}`. -/
theorem C6_empty_batch_disables_load_more_witness :
    createResultBeans (.obj [("data", .obj [("repositories", .arr [])])]) = some [] ∧
    ((onSearchResultsReceived [] (initialScope "q")).canLoadMore = some false ∧
     (onSearchResultsReceived [] (initialScope "q")).searchResults = (initialScope "q").searchResults) :=
  ⟨rfl, C6_empty_batch_disables_load_more (.obj [("data", .obj [("repositories", .arr [])])])
    [] (initialScope "q") rfl rfl⟩

/-- C7: for a successful response whose `repositories` array holds `N > 0`
raw records, normalization produces exactly the `N` projections onto the
six designated fields (in arrival order) and the success handler appends
exactly them to `searchResults`, leaving `canLoadMore` at `true`. -/
theorem C7_nonempty_batch_appends (records : List JSVal) (resp : JSVal) (s : ScopeState)
    (hresp : (resp.getField "data").getField "repositories" = .arr records)
    (hne : records ≠ []) (hclm : s.canLoadMore = some true) :
    createResultBeans resp = some (records.map projectRecord) ∧
    (records.map projectRecord).length = records.length ∧
    (onSearchResultsReceived (records.map projectRecord) s).searchResults =
      s.searchResults ++ records.map projectRecord ∧
    (onSearchResultsReceived (records.map projectRecord) s).canLoadMore = some true := by
  refine ⟨by simp [createResultBeans, hresp], by simp, ?_, ?_⟩ <;>
    simp [onSearchResultsReceived, hne, hclm]

/-- Witness for C7 at the spec's example: term `"foo bar"`, page 1,
response `{data: {repositories: [{owner:"o", name:"n", language:"JS",
followers:3, url:"u", description:"d"}]}}`. -/
theorem C7_nonempty_batch_appends_witness :
    createResultBeans (.obj [("data", .obj [("repositories", .arr [.obj [("owner", .str "o"),
        ("name", .str "n"), ("language", .str "JS"), ("followers", .num 3), ("url", .str "u"),
        ("description", .str "d")]])])]) =
      some ([JSVal.obj [("owner", .str "o"), ("name", .str "n"), ("language", .str "JS"),
        ("followers", .num 3), ("url", .str "u"), ("description", .str "d")]].map projectRecord) ∧
    (onSearchResultsReceived ([JSVal.obj [("owner", .str "o"), ("name", .str "n"),
        ("language", .str "JS"), ("followers", .num 3), ("url", .str "u"),
        ("description", .str "d")]].map projectRecord)
      { initialScope "foo bar" with canLoadMore := some true }).searchResults =
      ({ initialScope "foo bar" with canLoadMore := some true } : ScopeState).searchResults ++
        [JSVal.obj [("owner", .str "o"), ("name", .str "n"), ("language", .str "JS"),
          ("followers", .num 3), ("url", .str "u"), ("description", .str "d")]].map projectRecord :=
  by
  have h := C7_nonempty_batch_appends
    [JSVal.obj [("owner", .str "o"), ("name", .str "n"), ("language", .str "JS"),
      ("followers", .num 3), ("url", .str "u"), ("description", .str "d")]]
    (.obj [("data", .obj [("repositories", .arr [.obj [("owner", .str "o"),
      ("name", .str "n"), ("language", .str "JS"), ("followers", .num 3), ("url", .str "u"),
      ("description", .str "d")]])])])
    { initialScope "foo bar" with canLoadMore := some true }
    rfl (by simp) rfl
  exact ⟨h.1, h.2.2.1⟩

/-- C8: scheduling while a handle is armed throws `TASK ALREADY SCHEDULED`;
cancel on an armed task clears the pending timer and the handle; cancel on
an unarmed task is a no-op (and, being total, raises no error); and cancel
is idempotent. -/
theorem C8_schedule_guard_and_cancel_idempotent (id newID : Nat) (pending : Bool) :
    (DelayedTask.mk (some id) pending).schedule newID = .error "TASK ALREADY SCHEDULED" ∧
    (DelayedTask.mk (some id) pending).cancel = { taskID := none, timerPending := false } ∧
    (DelayedTask.mk none pending).cancel = DelayedTask.mk none pending ∧
    ∀ t : DelayedTask, t.cancel.cancel = t.cancel := by
  refine ⟨rfl, rfl, rfl, fun t => ?_⟩
  cases t with
  | mk tid p => cases tid <;> rfl

/-- C9: `isAllowedToLoadMore` is a pure predicate over the scope state,
true exactly when `canLoadMore` is `true`, the formatted term is
non-empty, `currentPage ≤ PAGE_LIMIT`, `canInitiateRequests` is `true`,
and at least one result is present — hence false whenever any one of
these conditions fails. -/
theorem C9_isAllowedToLoadMore_iff (s : ScopeState) :
    isAllowedToLoadMore s = true ↔
      (s.canLoadMore = some true ∧ getFormattedInput s.searchTerm ≠ "" ∧
       s.currentPage ≤ PAGE_LIMIT ∧ s.canInitiateRequests = true ∧
       0 < s.searchResults.length) := by
  simp [isAllowedToLoadMore, and_assoc]

/-- C10 (frame): for a non-empty batch, the success handler only appends
to `searchResults`; `currentPage`, `canLoadMore`, `error`, the private job
handle and the gating flags are all left unchanged. -/
theorem C10_success_handler_frame (beans : List JSVal) (s : ScopeState) (h : beans ≠ []) :
    (onSearchResultsReceived beans s).searchResults = s.searchResults ++ beans ∧
    (onSearchResultsReceived beans s).currentPage = s.currentPage ∧
    (onSearchResultsReceived beans s).canLoadMore = s.canLoadMore ∧
    (onSearchResultsReceived beans s).error = s.error ∧
    (onSearchResultsReceived beans s).delayedJob = s.delayedJob ∧
    (onSearchResultsReceived beans s).canInitiateRequests = s.canInitiateRequests ∧
    (onSearchResultsReceived beans s).fetchingMoreResults = s.fetchingMoreResults := by
  have hlen : (beans.length == 0) = false := by
    simp [List.length_eq_zero, h]
  simp [onSearchResultsReceived, hlen]

/-- Witness for C10 at the singleton batch `["x"]`. -/
theorem C10_success_handler_frame_witness :
    ([JSVal.str "x"] ≠ ([] : List JSVal)) ∧
    (onSearchResultsReceived [JSVal.str "x"] (initialScope "q")).searchResults =
      (initialScope "q").searchResults ++ [JSVal.str "x"] ∧
    (onSearchResultsReceived [JSVal.str "x"] (initialScope "q")).currentPage =
      (initialScope "q").currentPage :=
  ⟨by simp,
   (C10_success_handler_frame [JSVal.str "x"] (initialScope "q") (by simp)).1,
   (C10_success_handler_frame [JSVal.str "x"] (initialScope "q") (by simp)).2.1⟩

end SearchApp
